import Mathlib

/-!
Verification of the L2F Tennis Challenge notebook (`HandedNotebook.ipynb`).

The notebook builds an empirical transition model from historical tennis
point data and simulates points between a user policy and that model.
This file gives a shallow embedding of the notebook's code cells:

* `model` embeds the transition query (notebook cell 9);
* `play_point` embeds the inner `while True` point loop of the test cell
  (notebook cell 13);
* `simulate_points` embeds the outer `for num in range(...)` loop of the
  test cell, including the randomized choice of serving condition;
* `serves_opponent` embeds the list comprehension building opponent serves;
* `win_rate` embeds the reported final metric.

Randomness (`np.random.randint`, `np.random.choice`) is embedded by
threading an explicit stream `rng : Nat → Nat` of draws, with each draw
site consuming the value at a fresh position; Python exceptions
(`list.index` raising `ValueError`, `np.random.choice` on an empty list)
are embedded as explicit error results.
-/

/-- Python `list.index`: index of the first occurrence, or an error
(`ValueError`) when the element does not occur, embedded as `none`. -/
def index_of : List String → String → Option Nat
  | [], _ => none
  | a :: l, x => if a = x then some 0 else (index_of l x).map (· + 1)

/-- `np.random.choice` on a list of strings: an arbitrary draw, embedded by
selecting the element at position `r % length` for the current stream value
`r`.  On an empty list `np.random.choice` raises, embedded as `none`. -/
def npChoice (r : Nat) (l : List String) : Option String :=
  if l.isEmpty then none else some (l.getD (r % l.length) "")

/-- The notebook's ambient data: the two vocabularies loaded from
`possible_prompts.p` and `allowed_shots.p`, the transition table `Model`,
and the rarity `threshold` (set to `1` in the notebook, kept abstract and
integer-valued here since the spec discusses other values).

Modelled from the spec: `Model` is produced by `build_historical_model`
(in `utils.py`, which is not part of the notebook). Per spec §4.1 the
table is "indexed over every (prompt, shot) pair that appears in the
allowed vocabularies' cross product", with pairs never observed resolving
to the fallback at query time; it is therefore embedded as a total map
from index pairs to the ordered sequence of observed continuations, the
sequence being empty for pairs never observed. -/
structure Env where
  poss_prompts : List String
  all_shots : List String
  Model : Nat → Nat → List String
  threshold : Int

/-- Notebook cell 9:

```python
def model(prompt, shot):
    n_grams_ps = Model[poss_prompts.index(prompt), all_shots.index(shot)]
    if(len(n_grams_ps) > threshold):    # exclude rare reactions
        return np.random.choice(n_grams_ps)
    return 'n@'   # when (p, s) never happened, return unforced error in net
```

`list.index` raises `ValueError` when `prompt` or `shot` is not in its
vocabulary, embedded as `.error ()`. -/
def model (env : Env) (r : Nat) (prompt shot : String) : Except Unit String :=
  match index_of env.poss_prompts prompt, index_of env.all_shots shot with
  | some i, some j =>
    let n_grams_ps := env.Model i j
    if (n_grams_ps.length : Int) > env.threshold then
      match npChoice r n_grams_ps with
      | some v => .ok v
      | none => .error ()
    else .ok "n@"
  | _, _ => .error ()

/-- Modelled from the spec: `is_win` is imported from `utils.py`, which is
not part of the notebook.  Per spec §3 and §4.3, termination classification
"is a pure function of the token's trailing marker characters": the markers
are `*` (winning shot) and `@` (unforced error).  A prompt is the simulated
opponent's output; a bare marker refers to the user's own preceding shot
(`*` the user's winner — a win; `@` the user's error — a loss), while a
longer token carrying the marker describes the opponent's shot (`f1*` an
opponent winner — a loss; `n@` the opponent's net error — a win).  Returns
`some 1` for a point won, `some 0` for a point lost, and `none` for a
non-terminal prompt. -/
def is_win (prompt : String) : Option Nat :=
  match prompt.data.getLast? with
  | some '@' => if prompt.data.length = 1 then some 0 else some 1
  | some '*' => if prompt.data.length = 1 then some 1 else some 0
  | _ => none

/-- A user policy: a finite mapping from prompt tokens to lists of shot
tokens (the notebook's `example_policy` dictionary). -/
def Policy := List (String × List String)

/-- Python `example_policy.get(current_prompt, ['5'])`: the policy's list
for the prompt, or the default single-element list `['5']`. -/
def policy_get (policy : Policy) (p : String) : List String :=
  match policy.lookup p with
  | some l => l
  | none => ["5"]

/-- Outcome of embedding one run of the notebook's inner `while True` point
loop with a given amount of fuel:
* `finished won k`: the loop hit a terminal prompt and broke, incrementing
  the win counter (`won = true`) or the loss counter (`won = false`); `k`
  is the random-stream position after the loop;
* `raised`: a Python exception escaped the loop (`ValueError` from
  `list.index`, or `np.random.choice` on an empty list);
* `running k p`: the fuel ran out with the loop still going, at stream
  position `k` with current prompt `p` — the Python loop, which has no
  cap, would simply continue. -/
inductive PointResult where
  | finished (won : Bool) (k : Nat)
  | raised
  | running (k : Nat) (p : String)
deriving DecidableEq, Repr

/-- The inner `while True` loop of notebook cell 13:

```python
while True:
    shot = np.random.choice(example_policy.get(current_prompt, ['5']))
    next_prompt = model(current_prompt, shot)
    current_prompt = next_prompt
    if is_win(current_prompt) == 1:
        points_won += 1
        break
    if is_win(current_prompt) == 0:
        points_lost += 1
        break
```

`fuel` bounds the number of iterations unrolled (the Python loop itself is
unbounded; exhausted fuel yields `.running`); `k` is the position in the
random stream `rng`, advanced past both potential draw sites each turn. -/
def play_point (env : Env) (policy : Policy) (rng : Nat → Nat) :
    Nat → Nat → String → PointResult
  | 0, k, current_prompt => .running k current_prompt
  | fuel + 1, k, current_prompt =>
    match npChoice (rng k) (policy_get policy current_prompt) with
    | none => .raised
    | some shot =>
      match model env (rng (k + 1)) current_prompt shot with
      | .error _ => .raised
      | .ok next_prompt =>
        if is_win next_prompt = some 1 then .finished true (k + 2)
        else if is_win next_prompt = some 0 then .finished false (k + 2)
        else play_point env policy rng fuel (k + 2) next_prompt

/-- Notebook cell 13:

```python
serves_opponent = [shot for shot in [sh[0] for sh in shots_opo_com]
                   if shot[0] in '456']
```

`shots_opo_com` (from `build_historical_model` in `utils.py`, not part of
the notebook) is kept abstract as a list of historical opponent shot
sequences; `sh[0]` takes the first shot of each sequence and the filter
keeps those whose first character is `4`, `5` or `6`. -/
def serves_opponent (shots_opo_com : List (List String)) : List String :=
  (shots_opo_com.filterMap List.head?).filter
    (fun shot => shot.take 1 == "4" || shot.take 1 == "5" || shot.take 1 == "6")

/-- The serving-condition randomization at the top of each iteration of the
outer loop of notebook cell 13:

```python
if np.random.randint(0,2) == 0 :
    current_prompt = 'X'
else:
    current_prompt = np.random.choice(serves_opponent)
```

Returns the starting prompt together with the next unused random-stream
position, or `none` when `np.random.choice` raises on an empty list. -/
def start_prompt (rng : Nat → Nat) (k : Nat) (serves : List String) :
    Option (String × Nat) :=
  if rng k % 2 = 0 then some ("X", k + 1)
  else
    match npChoice (rng (k + 1)) serves with
    | none => none
    | some p => some (p, k + 2)

/-- Outcome of the outer `for num in range(number_of_points_played)` loop:
`done points_won points_lost` when every simulated point terminated,
`raised` when a Python exception escaped, `timeout` when the fuel of some
inner point loop ran out. -/
inductive SimResult where
  | done (points_won points_lost : Nat)
  | raised
  | timeout
deriving DecidableEq, Repr

/-- The outer loop of notebook cell 13, accumulating `points_won` and
`points_lost` over `num` remaining points.  Each iteration randomizes the
serving condition (`start_prompt`) and then plays one point to termination
(`play_point`), with every point loop given the same `fuel` bound. -/
def simulate_points (env : Env) (policy : Policy) (serves : List String)
    (rng : Nat → Nat) (fuel : Nat) :
    Nat → Nat → Nat → Nat → SimResult
  | 0, _, points_won, points_lost => .done points_won points_lost
  | num + 1, k, points_won, points_lost =>
    match start_prompt rng k serves with
    | none => .raised
    | some (current_prompt, k') =>
      match play_point env policy rng fuel k' current_prompt with
      | .raised => .raised
      | .running _ _ => .timeout
      | .finished won k'' =>
        simulate_points env policy serves rng fuel num k''
          (if won then points_won + 1 else points_won)
          (if won then points_lost else points_lost + 1)

/-- The reported metric of notebook cell 13:
`points_won/(points_lost + points_won)`. -/
def win_rate (points_won points_lost : Nat) : ℚ :=
  (points_won : ℚ) / ((points_lost : ℚ) + (points_won : ℚ))

/-! ### Concrete instances used in witnesses and counterexamples -/

/-- A small concrete environment: vocabularies containing the waiting
token, a serve and the fallback token, with no (prompt, shot) pair ever
observed (every transition-table bucket empty). -/
def cEnv : Env :=
  { poss_prompts := ["X", "5", "n@"]
    all_shots := ["5", "f28"]
    Model := fun _ _ => []
    threshold := 1 }

/-- A concrete environment whose every transition-table bucket holds two
observations of the non-terminal prompt `f1`, so the query always samples
`f1` and never falls back. -/
def loopEnv : Env :=
  { poss_prompts := ["f1"]
    all_shots := ["f1"]
    Model := fun _ _ => ["f1", "f1"]
    threshold := 1 }

/-- A policy that always replies `f1` to the prompt `f1`. -/
def loopPolicy : Policy := [("f1", ["f1"])]

/-- A concrete environment with one frequently observed pair (two recorded
continuations against a threshold of 1). -/
def freqEnv : Env :=
  { poss_prompts := ["X"]
    all_shots := ["5"]
    Model := fun _ _ => ["f1", "f3"]
    threshold := 1 }

/-! ### Helper lemmas -/

theorem index_of_eq_none {l : List String} {x : String} (h : x ∉ l) :
    index_of l x = none := by
  induction l with
  | nil => rfl
  | cons a l ih =>
    have hax : ¬ a = x := fun hax => h (by simp [hax])
    have hxl : x ∉ l := fun hx => h (List.mem_cons_of_mem a hx)
    simp [index_of, hax, ih hxl]

theorem npChoice_mem {r : Nat} {l : List String} {v : String}
    (h : npChoice r l = some v) : v ∈ l := by
  unfold npChoice at h
  split at h
  · exact absurd h (by simp)
  · rename_i hne
    have hnil : l ≠ [] := by
      intro hl; rw [hl] at hne; exact hne rfl
    have hlen : r % l.length < l.length :=
      Nat.mod_lt _ (List.length_pos.mpr hnil)
    rw [List.getD_eq_getElem l _ hlen] at h
    have hv := List.getElem_mem hlen
    rw [Option.some_inj] at h
    rw [← h]
    exact hv

theorem npChoice_total {r : Nat} {l : List String} (h : l ≠ []) :
    ∃ v, npChoice r l = some v ∧ v ∈ l := by
  have hlen : r % l.length < l.length := Nat.mod_lt _ (List.length_pos.mpr h)
  refine ⟨l.getD (r % l.length) "", ?_, ?_⟩
  · unfold npChoice
    rw [if_neg (by simpa [List.isEmpty_iff] using h)]
  · rw [List.getD_eq_getElem l _ hlen]
    exact List.getElem_mem hlen

theorem simulate_counts_aux (env : Env) (policy : Policy)
    (serves : List String) (rng : Nat → Nat) (fuel : Nat) :
    ∀ (num k w0 l0 w l : Nat),
      simulate_points env policy serves rng fuel num k w0 l0 =
        SimResult.done w l →
      w + l = num + w0 + l0 := by
  intro num
  induction num with
  | zero =>
    intro k w0 l0 w l h
    simp only [simulate_points] at h
    injection h with h1 h2
    omega
  | succ num ih =>
    intro k w0 l0 w l h
    simp only [simulate_points] at h
    split at h
    · exact absurd h (by simp)
    · split at h
      · exact absurd h (by simp)
      · exact absurd h (by simp)
      · rename_i won k'' _
        have := ih _ _ _ _ _ h
        cases won <;> simp at this <;> omega

theorem model_eq_of_index (env : Env) (r : Nat) {prompt shot : String}
    {i j : Nat} (hi : index_of env.poss_prompts prompt = some i)
    (hj : index_of env.all_shots shot = some j) :
    model env r prompt shot =
      (if ((env.Model i j).length : Int) > env.threshold then
        match npChoice r (env.Model i j) with
        | some v => Except.ok v
        | none => Except.error ()
      else Except.ok "n@") := by
  unfold model
  rw [hi, hj]

theorem play_point_loop_step (fuel k : Nat) :
    play_point loopEnv loopPolicy (fun _ => 0) (fuel + 1) k "f1" =
      play_point loopEnv loopPolicy (fun _ => 0) fuel (k + 2) "f1" := rfl

theorem play_point_loop_running (fuel k : Nat) :
    play_point loopEnv loopPolicy (fun _ => 0) fuel k "f1" =
      PointResult.running (k + 2 * fuel) "f1" := by
  induction fuel generalizing k with
  | zero => simp only [play_point]; congr 1
  | succ fuel ih =>
    rw [play_point_loop_step, ih]
    congr 1
    omega

/-! ### Claims -/

/-- C1 (counterexample): the claim that a shot outside the allowed-shots
vocabulary still resolves through the net-error fallback without raising is
false: at the concrete input (prompt `X`, shot `zz`, with `zz` not in the
vocabulary) the transition query raises `ValueError` (`all_shots.index`
fails), and a point loop whose policy chooses that shot aborts with the
exception instead of continuing. -/
theorem c1_out_of_vocab_cex :
    model cEnv 0 "X" "zz" = Except.error () ∧
    play_point cEnv [("X", ["zz"])] (fun _ => 0) 5 0 "X" = PointResult.raised := by
  constructor <;> rfl

/-- C1 (amended): for every shot token not in the allowed-shots vocabulary,
`model prompt shot` raises `ValueError` — embedded as an error result — for
every prompt and every random draw; the net-error fallback is reached only
for in-vocabulary pairs. -/
theorem c1_out_of_vocab_raises (env : Env) (r : Nat) (prompt shot : String)
    (h : shot ∉ env.all_shots) :
    model env r prompt shot = Except.error () := by
  unfold model
  rw [index_of_eq_none h]
  cases index_of env.poss_prompts prompt <;> rfl

/-- C1 (witness): the amended statement at the concrete out-of-vocabulary
shot `zz`. -/
theorem c1_out_of_vocab_raises_witness :
    "zz" ∉ cEnv.all_shots ∧ model cEnv 0 "X" "zz" = Except.error () :=
  ⟨by decide, c1_out_of_vocab_raises cEnv 0 "X" "zz" (by decide)⟩

/-- C2: for every (prompt, shot) pair in the vocabularies whose
observed-continuation sequence is empty and every threshold at least 0, the
transition query returns the fixed net-error fallback token `n@`,
deterministically — the result does not depend on the random draw `r`. -/
theorem c2_unseen_pair_fallback (env : Env) (r : Nat) (prompt shot : String)
    (i j : Nat) (hi : index_of env.poss_prompts prompt = some i)
    (hj : index_of env.all_shots shot = some j)
    (hempty : env.Model i j = [])
    (ht : 0 ≤ env.threshold) :
    model env r prompt shot = Except.ok "n@" := by
  have hc : ¬ ((env.Model i j).length : Int) > env.threshold := by
    rw [hempty]
    simp
    omega
  rw [model_eq_of_index env r hi hj, if_neg hc]

/-- C2 (witness): the concrete never-observed pair (`X`, `5`) in `cEnv`
resolves to the fallback. -/
theorem c2_unseen_pair_fallback_witness :
    index_of cEnv.poss_prompts "X" = some 0 ∧ cEnv.Model 0 0 = [] ∧
    model cEnv 0 "X" "5" = Except.ok "n@" :=
  ⟨by decide, rfl,
   c2_unseen_pair_fallback cEnv 0 "X" "5" 0 0 (by decide) (by decide) rfl
     (by decide)⟩

/-- C3: for every (prompt, shot) pair in the vocabularies whose
observed-continuation sequence is longer than the (nonnegative) rarity
threshold, the transition query returns a member of that exact sequence —
the fallback branch is not taken, so the result can be `n@` only if `n@`
itself is a recorded continuation. -/
theorem c3_frequent_pair_samples_history (env : Env) (r : Nat)
    (prompt shot : String) (i j : Nat)
    (hi : index_of env.poss_prompts prompt = some i)
    (hj : index_of env.all_shots shot = some j)
    (ht : 0 ≤ env.threshold)
    (hlen : ((env.Model i j).length : Int) > env.threshold) :
    ∃ v, model env r prompt shot = Except.ok v ∧ v ∈ env.Model i j ∧
      ("n@" ∉ env.Model i j → v ≠ "n@") := by
  have hnil : env.Model i j ≠ [] := by
    intro h0
    rw [h0] at hlen
    simp at hlen
    omega
  obtain ⟨v, hv, hmem⟩ := npChoice_total (r := r) hnil
  refine ⟨v, ?_, hmem, fun hn hvn => hn (hvn ▸ hmem)⟩
  rw [model_eq_of_index env r hi hj, if_pos hlen, hv]

/-- C3 (witness): the concrete pair (`X`, `5`) in `freqEnv`, observed twice
against threshold 1, samples from its recorded continuations. -/
theorem c3_frequent_pair_samples_history_witness :
    ∃ v, model freqEnv 0 "X" "5" = Except.ok v ∧ v ∈ freqEnv.Model 0 0 ∧
      ("n@" ∉ freqEnv.Model 0 0 → v ≠ "n@") :=
  c3_frequent_pair_samples_history freqEnv 0 "X" "5" 0 0 (by decide)
    (by decide) (by decide) (by decide)

/-- C4: the fixed fallback token `n@` is classified by `is_win` as a win
for the user (value 1), and consequently any point-loop turn in which the
transition query returns the fallback terminates immediately with the
point counted as won. -/
theorem c4_fallback_is_win :
    is_win "n@" = some 1 ∧
    ∀ (env : Env) (policy : Policy) (rng : Nat → Nat) (fuel k : Nat)
      (prompt shot : String),
      npChoice (rng k) (policy_get policy prompt) = some shot →
      model env (rng (k + 1)) prompt shot = Except.ok "n@" →
      play_point env policy rng (fuel + 1) k prompt =
        PointResult.finished true (k + 2) := by
  refine ⟨rfl, ?_⟩
  intro env policy rng fuel k prompt shot hs hm
  simp only [play_point, hs, hm]
  rfl

/-- C4 (witness): in `cEnv`, where every pair is unseen, the first turn
returns the fallback and the point is immediately won. -/
theorem c4_fallback_is_win_witness :
    is_win "n@" = some 1 ∧
    play_point cEnv [] (fun _ => 0) 1 0 "X" = PointResult.finished true 2 :=
  ⟨c4_fallback_is_win.1,
   c4_fallback_is_win.2 cEnv [] (fun _ => 0) 0 0 "X" "5" rfl rfl⟩

/-- C5: for every prompt for which the policy has no entry, the default
single-element distribution `['5']` is substituted and the sampled shot is
always `5`, whatever the random draw — the sampling step cannot fail. -/
theorem c5_policy_missing_defaults (policy : Policy) (p : String)
    (h : policy.lookup p = none) :
    policy_get policy p = ["5"] ∧
    ∀ r, npChoice r (policy_get policy p) = some "5" := by
  have hg : policy_get policy p = ["5"] := by
    unfold policy_get
    rw [h]
  refine ⟨hg, fun r => ?_⟩
  rw [hg]
  unfold npChoice
  simp [Nat.mod_one]

/-- C5 (witness): the empty policy has no entry for `X`; the default is
substituted and the draw at stream value 7 yields `5`. -/
theorem c5_policy_missing_defaults_witness :
    policy_get [] "X" = ["5"] ∧ npChoice 7 (policy_get [] "X") = some "5" :=
  ⟨(c5_policy_missing_defaults [] "X" rfl).1,
   (c5_policy_missing_defaults [] "X" rfl).2 7⟩

/-- C6 (counterexample): the claim that the point simulator caps the number
of turns is false: in the concrete environment `loopEnv` with the policy
`loopPolicy` (whose only transition leads back to the non-terminal prompt
`f1`) there is no cap beyond which the point loop has stopped — however
much fuel is granted, the loop is still running. -/
theorem c6_turn_cap_cex :
    ¬ ∃ cap : Nat, ∀ fuel : Nat, cap ≤ fuel →
      play_point loopEnv loopPolicy (fun _ => 0) fuel 0 "f1" ≠
        PointResult.running (2 * fuel) "f1" := by
  rintro ⟨cap, h⟩
  exact h cap le_rfl (by simpa using play_point_loop_running cap 0)

/-- C6 (amended): the point simulator has no turn cap: its loop runs until
a terminal token (or an exception) and, for a policy and transition table
forming a non-terminal cycle, exceeds every bound on the number of turns —
after any number `fuel` of turns from any stream position `k` it is still
running. -/
theorem c6_no_turn_cap (fuel k : Nat) :
    play_point loopEnv loopPolicy (fun _ => 0) fuel k "f1" =
      PointResult.running (k + 2 * fuel) "f1" :=
  play_point_loop_running fuel k

/-- C7: when the aggregate simulator completes `N ≥ 1` points, the reported
metric is `points_won/(points_lost + points_won)` over the accumulated
counts and lies in the closed interval [0, 1]. -/
theorem c7_win_rate_bounds (env : Env) (policy : Policy)
    (serves : List String) (rng : Nat → Nat) (fuel N w l : Nat)
    (h : simulate_points env policy serves rng fuel N 0 0 0 =
      SimResult.done w l)
    (hN : 1 ≤ N) :
    win_rate w l = (w : ℚ) / ((l : ℚ) + (w : ℚ)) ∧
    0 ≤ win_rate w l ∧ win_rate w l ≤ 1 := by
  have hc : w + l = N + 0 + 0 :=
    simulate_counts_aux env policy serves rng fuel N 0 0 0 w l h
  have hpos : (0 : ℚ) < (l : ℚ) + (w : ℚ) := by
    have h1 : 0 < l + w := by omega
    exact_mod_cast h1
  refine ⟨rfl, ?_, ?_⟩
  · unfold win_rate
    exact div_nonneg (by positivity) (le_of_lt hpos)
  · unfold win_rate
    rw [div_le_one hpos]
    have hl : (0 : ℚ) ≤ (l : ℚ) := by positivity
    linarith

/-- C7 (witness): one point simulated in `cEnv` finishes won, and the
reported metric is 1, inside [0, 1]. -/
theorem c7_win_rate_bounds_witness :
    simulate_points cEnv [] [] (fun _ => 0) 1 1 0 0 0 = SimResult.done 1 0 ∧
    (win_rate 1 0 = ((1 : ℕ) : ℚ) / (((0 : ℕ) : ℚ) + ((1 : ℕ) : ℚ)) ∧
      0 ≤ win_rate 1 0 ∧ win_rate 1 0 ≤ 1) :=
  ⟨by decide,
   c7_win_rate_bounds cEnv [] [] (fun _ => 0) 1 1 1 0 (by decide) (by decide)⟩

/-- C8: every starting prompt produced by the outer loop's serving
randomization is either the fixed waiting-to-serve token `X` (when the
random bit is 0) or a member of the opponent-serves list — a first shot of
a historical opponent sequence whose first character is `4`, `5` or `6`. -/
theorem c8_start_prompt_cases (rng : Nat → Nat) (k : Nat)
    (data : List (List String)) (p : String) (k' : Nat)
    (h : start_prompt rng k (serves_opponent data) = some (p, k')) :
    p = "X" ∨ (p ∈ serves_opponent data ∧
      (p.take 1 = "4" ∨ p.take 1 = "5" ∨ p.take 1 = "6") ∧
      ∃ sh ∈ data, sh.head? = some p) := by
  unfold start_prompt at h
  split at h
  · left
    simp only [Option.some_inj, Prod.mk.injEq] at h
    exact h.1.symm
  · split at h
    · exact absurd h (by simp)
    · rename_i v hv
      right
      simp only [Option.some_inj, Prod.mk.injEq] at h
      rw [← h.1]
      have hmem := npChoice_mem hv
      have hfil := hmem
      unfold serves_opponent at hfil
      obtain ⟨h1, h2⟩ := List.mem_filter.mp hfil
      obtain ⟨sh, hsh, hhead⟩ := List.mem_filterMap.mp h1
      refine ⟨hmem, ?_, sh, hsh, hhead⟩
      have h3 : (v.take 1 = "4" ∨ v.take 1 = "5") ∨ v.take 1 = "6" := by
        simpa using h2
      tauto

/-- C8 (witness): with random bit 1 the start is drawn from the serves
list built from one historical sequence starting with `41`. -/
theorem c8_start_prompt_cases_witness :
    "41" = "X" ∨ ("41" ∈ serves_opponent [["41", "f1"]] ∧
      ("41".take 1 = "4" ∨ "41".take 1 = "5" ∨ "41".take 1 = "6") ∧
      ∃ sh ∈ [["41", "f1"]], sh.head? = some "41") :=
  c8_start_prompt_cases (fun _ => 1) 0 [["41", "f1"]] "41" 2 (by decide)

/-- C9: the aggregate simulator is deterministic given the random stream:
two runs on identical inputs whose streams agree at every position produce
identical results, and in particular identical win and loss counts. -/
theorem c9_deterministic (env : Env) (policy : Policy)
    (serves : List String) (rng₁ rng₂ : Nat → Nat) (fuel num k w l : Nat)
    (h : ∀ i, rng₁ i = rng₂ i) :
    simulate_points env policy serves rng₁ fuel num k w l =
      simulate_points env policy serves rng₂ fuel num k w l := by
  have hr : rng₁ = rng₂ := funext h
  rw [hr]

/-- C9 (witness): two syntactically different but pointwise-equal streams
give the same run. -/
theorem c9_deterministic_witness :
    simulate_points cEnv [] [] (fun _ => 0) 1 1 0 0 0 =
      simulate_points cEnv [] [] (fun i => i * 0) 1 1 0 0 0 :=
  c9_deterministic cEnv [] [] (fun _ => 0) (fun i => i * 0) 1 1 0 0 0
    (fun i => (Nat.mul_zero i).symm)

/-- C10: whenever the aggregate loop completes, every simulated point has
incremented exactly one of the two counters by exactly one: starting from
counts `w0`, `l0` with `num` points to play, completion with final counts
`w`, `l` forces `w + l = num + w0 + l0`; the environment, policy and serve
list are inputs only and are unchanged by the run. -/
theorem c10_counts_invariant (env : Env) (policy : Policy)
    (serves : List String) (rng : Nat → Nat) (fuel num k w0 l0 w l : Nat)
    (h : simulate_points env policy serves rng fuel num k w0 l0 =
      SimResult.done w l) :
    w + l = num + w0 + l0 :=
  simulate_counts_aux env policy serves rng fuel num k w0 l0 w l h

/-- C10 (witness): two points simulated in `cEnv` finish with counts
2 and 0, summing to the number of points played. -/
theorem c10_counts_invariant_witness :
    simulate_points cEnv [] [] (fun _ => 0) 1 2 0 0 0 = SimResult.done 2 0 ∧
    (2 : ℕ) + 0 = 2 + 0 + 0 :=
  ⟨by decide,
   c10_counts_invariant cEnv [] [] (fun _ => 0) 1 2 0 0 0 2 0 (by decide)⟩
